import Mathlib

/-!
Formal model of the eta-its-api traffic route monitor.

The Python sources (api.py, main.py, change_monitor.py, route_processor.py,
traffic_fetcher.py) are shallowly embedded: JSON/dict values become the
inductive `JVal`, fallible Python operations (attribute access, subscripts,
float coercion, division) become `Except PyError` computations, network and
database effects become explicit oracle parameters, and numbers are modelled
as exact rationals.
-/

namespace EtaIts
/-- Python exception kinds that the embedded code can raise. -/
inductive PyError where
  | attributeError
  | keyError
  | typeError
  | valueError
  | zeroDivisionError
  | indexError
  deriving DecidableEq, Repr

/-- JSON-like Python values: None, bool, numbers (modelled as exact rationals),
strings, lists and dicts (association lists with string keys, first binding wins,
as in a Python dict where keys are unique). -/
inductive JVal where
  | null : JVal
  | bool (b : Bool) : JVal
  | num (q : ℚ) : JVal
  | str (s : String) : JVal
  | arr (items : List JVal) : JVal
  | obj (fields : List (String × JVal)) : JVal

/-- Python truthiness: None, False, 0, empty string, empty list and empty dict
are falsy; everything else is truthy. -/
def JVal.truthy : JVal → Bool
  | .null => false
  | .bool b => b
  | .num q => q != 0
  | .str s => s != ""
  | .arr items => !items.isEmpty
  | .obj fields => !fields.isEmpty

/-- First binding of a key in a dict's field list. -/
def lookupStr (k : String) : List (String × JVal) → Option JVal
  | [] => none
  | (k', v) :: rest => if k' = k then some v else lookupStr k rest

/-- Python `d.get(key)`: `some` value or `none` when the key is absent; raises
AttributeError when the receiver is not a dict (lists, strings and numbers have
no `get` attribute). -/
def pyGet (v : JVal) (k : String) : Except PyError (Option JVal) :=
  match v with
  | .obj fields => .ok (lookupStr k fields)
  | _ => .error .attributeError

/-- Python `d.get(key, default)`. -/
def pyGetD (v : JVal) (k : String) (d : JVal) : Except PyError JVal :=
  (pyGet v k).map (fun o => o.getD d)

/-- Python `v[key]` with a string key: KeyError on a dict missing the key,
TypeError when the receiver is not a dict (string/list subscripts require
integers; numbers are not subscriptable). -/
def pySubscript (v : JVal) (k : String) : Except PyError JVal :=
  match v with
  | .obj fields =>
    match lookupStr k fields with
    | some x => .ok x
    | none => .error .keyError
  | _ => .error .typeError

/-- Python `v[i]` with a non-negative integer index: IndexError past the end of
a list or string, KeyError on a dict (integer keys never occur in this model),
TypeError otherwise. -/
def pyIndex (v : JVal) (i : Nat) : Except PyError JVal :=
  match v with
  | .arr items =>
    match items.get? i with
    | some x => .ok x
    | none => .error .indexError
  | .str s =>
    match s.data.get? i with
    | some c => .ok (.str (String.mk [c]))
    | none => .error .indexError
  | .obj _ => .error .keyError
  | _ => .error .typeError

/-- Whether a list of values contains a given string (Python `k in list`
membership: only string elements can compare equal to a string). -/
def arrHasStr (items : List JVal) (k : String) : Bool :=
  items.any fun x =>
    match x with
    | .str s => s == k
    | _ => false

/-- Whether one character list starts with another. -/
def charsStartWith : List Char → List Char → Bool
  | _, [] => true
  | [], _ :: _ => false
  | a :: as, b :: bs => a == b && charsStartWith as bs

/-- Whether `pat` occurs as a contiguous run inside `l`. -/
def charsContain : List Char → List Char → Bool
  | [], pat => pat.isEmpty
  | l@(_ :: as), pat => charsStartWith l pat || charsContain as pat

/-- Python `pat in s` on strings: contiguous substring containment. -/
def strContainsSub (s pat : String) : Bool :=
  charsContain s.data pat.data

/-- Python `k in v` for a string `k`: key membership on dicts, element
membership on lists, substring containment on strings, TypeError otherwise. -/
def pyContainsKey (v : JVal) (k : String) : Except PyError Bool :=
  match v with
  | .obj fields => .ok (lookupStr k fields).isSome
  | .arr items => .ok (arrHasStr items k)
  | .str s => .ok (strContainsSub s k)
  | _ => .error .typeError

/-- Numeric value of a list of decimal digit characters. -/
def decDigitsVal (cs : List Char) : Nat :=
  cs.foldl (fun acc c => acc * 10 + (c.toNat - 48)) 0

/-- Parse an unsigned decimal literal (digits, optionally with a fractional
part) into a rational. -/
def parseUnsignedDec (cs : List Char) : Option ℚ :=
  let intPart := cs.takeWhile (·.isDigit)
  let rest := cs.dropWhile (·.isDigit)
  match rest with
  | [] => if intPart.isEmpty then none else some ((decDigitsVal intPart : ℚ))
  | '.' :: frac =>
    if frac.all (·.isDigit) && !(intPart.isEmpty && frac.isEmpty) then
      some ((decDigitsVal (intPart ++ frac) : ℚ) / ((10 : ℚ) ^ frac.length))
    else none
  | _ => none

/-- Parse a Python decimal float literal with an optional sign. Exotic float
syntax (exponents, inf, nan, surrounding whitespace) is not modelled; no
source input in the claims uses it. -/
def parsePyFloat (s : String) : Option ℚ :=
  match s.data with
  | '-' :: rest => (parseUnsignedDec rest).map Neg.neg
  | '+' :: rest => parseUnsignedDec rest
  | cs => parseUnsignedDec cs

/-- Python `float(x)`: numbers pass through, booleans become 0/1, numeric
strings are parsed, an unparseable string raises ValueError, and None, lists
and dicts raise TypeError. -/
def pyFloat : JVal → Except PyError ℚ
  | .num q => .ok q
  | .bool b => .ok (if b then 1 else 0)
  | .str s =>
    match parsePyFloat s with
    | some q => .ok q
    | none => .error .valueError
  | .null => .error .typeError
  | .arr _ => .error .typeError
  | .obj _ => .error .typeError

/-- Python division: raises ZeroDivisionError on a zero denominator. -/
def pyDiv (a b : ℚ) : Except PyError ℚ :=
  if b = 0 then .error .zeroDivisionError else .ok (a / b)

/-- Python `abs` on a number. -/
def pyAbs (q : ℚ) : ℚ :=
  if q < 0 then -q else q

/-- Require a numeric value. The snapshot metrics are compared
(`duration > 0`), divided and inserted into numeric columns, all of which
raise TypeError on non-numeric values. -/
def pyNumValue : JVal → Except PyError ℚ
  | .num q => .ok q
  | _ => .error .typeError

/-- One row of the route_snapshots table (src/change_monitor.py lines 15-25).
Timestamps are modelled as natural numbers from a strictly monotone insertion
clock; the INTEGER/REAL column coercions of the underlying store are not
modelled, since no claim depends on them. -/
structure SnapRow where
  ts : Nat
  routeId : String
  duration : ℚ
  distance : ℚ
  avgSpeed : ℚ
  deriving DecidableEq, Repr

/-- One change event emitted by detect_changes (src/change_monitor.py
lines 91-96 and 101-106). -/
structure ChangeEvent where
  changeType : String
  oldValue : ℚ
  newValue : ℚ
  percentageChange : ℚ
  deriving DecidableEq, Repr

/-- ChangeMonitor.store_route_snapshot (src/change_monitor.py lines 43-61):
extract duration and distance from a route-data dict (defaulting to 0 when
absent), compute the stored average speed as `distance / duration` on the raw
metre and second values (0 when duration is not positive), and append a row. -/
def store_route_snapshot (now : Nat) (routeId : String) (routeData : JVal)
    (table : List SnapRow) : Except PyError (List SnapRow) := do
  let durationV ← pyGetD routeData "duration" (.num 0)
  let distanceV ← pyGetD routeData "distance" (.num 0)
  let duration ← pyNumValue durationV
  let distance ← pyNumValue distanceV
  let avgSpeed := if duration > 0 then distance / duration else 0
  .ok (table ++ [⟨now, routeId, duration, distance, avgSpeed⟩])

/-- Insert a row into a timestamp-descending list, keeping it descending. -/
def insertTsDesc (r : SnapRow) : List SnapRow → List SnapRow
  | [] => [r]
  | x :: xs => if x.ts ≤ r.ts then r :: x :: xs else x :: insertTsDesc r xs

/-- Sort rows by timestamp, descending. -/
def sortTsDesc : List SnapRow → List SnapRow
  | [] => []
  | x :: xs => insertTsDesc x (sortTsDesc xs)

/-- Rows of the table for one route id ordered by timestamp descending: the
`WHERE route_id = %s ORDER BY timestamp DESC` query of detect_changes
(src/change_monitor.py lines 69-75). Ties cannot arise because the insertion
clock is strictly monotone. -/
def rowsByTsDesc (routeId : String) (table : List SnapRow) : List SnapRow :=
  sortTsDesc (table.filter (fun r => r.routeId == routeId))

/-- ChangeMonitor.detect_changes (src/change_monitor.py lines 63-121): take
the two most recent snapshots for the route id; with fewer than two, return
no events. Otherwise emit a duration event when the absolute duration
difference strictly exceeds 30 and an avg_speed event when the absolute speed
difference strictly exceeds 2; each event's percentage change is
`(new - old) / old * 100` and raises ZeroDivisionError when the old value
is 0. -/
def detect_changes (routeId : String) (table : List SnapRow) :
    Except PyError (List ChangeEvent) :=
  match (rowsByTsDesc routeId table).take 2 with
  | current :: previous :: _ => do
    let durChanges ←
      if pyAbs (current.duration - previous.duration) > 30 then do
        let pct ← pyDiv (current.duration - previous.duration) previous.duration
        Except.ok [⟨"duration", previous.duration, current.duration, pct * 100⟩]
      else Except.ok []
    let spdChanges ←
      if pyAbs (current.avgSpeed - previous.avgSpeed) > 2 then do
        let pct ← pyDiv (current.avgSpeed - previous.avgSpeed) previous.avgSpeed
        Except.ok [⟨"avg_speed", previous.avgSpeed, current.avgSpeed, pct * 100⟩]
      else Except.ok []
    Except.ok (durChanges ++ spdChanges)
  | _ => Except.ok []

/-- TrafficRouteMonitor._assess_traffic_condition (src/main.py lines 671-680):
classify a speed in km/h into one of four ordinal traffic condition labels. -/
def assess_traffic_condition (speed_kmh : ℚ) : String :=
  if speed_kmh ≥ 50 then "good_flow"
  else if speed_kmh ≥ 30 then "moderate_traffic"
  else if speed_kmh ≥ 15 then "heavy_traffic"
  else "congested"

/-- Bounding box as used by the monitor: (min_lng, max_lng, min_lat, max_lat). -/
abbrev Bbox := ℚ × ℚ × ℚ × ℚ

/-- One matched traffic sample as built by
TrafficRouteMonitor._match_traffic_geographically (src/main.py lines 144-152):
link id, float-coerced current speed and travel time, and the raw road name,
created date and api record. -/
structure Sample where
  linkId : JVal
  currentSpeed : ℚ
  travelTime : ℚ
  roadName : JVal
  createdDate : JVal
  apiData : JVal

/-- Python iteration over a value: list elements, the characters of a string
(as one-character strings), the keys of a dict; numbers, booleans and None
are not iterable. -/
def pyIterate : JVal → Except PyError (List JVal)
  | .arr items => .ok items
  | .str s => .ok (s.data.map (fun c => .str (String.mk [c])))
  | .obj fields => .ok (fields.map (fun kv => .str kv.1))
  | _ => .error .typeError

/-- Traffic-item extraction of _match_traffic_geographically (src/main.py
lines 125-130): `traffic_data['body']['items']` when 'body' is present and
contains 'items', else `traffic_data['data']` when 'data' is present, else
the empty list. The response.data, result and bare-list payload shapes are
not recognized here. -/
def matchTrafficItems (trafficData : JVal) : Except PyError JVal := do
  let cond1 ← do
    let hasBody ← pyContainsKey trafficData "body"
    if hasBody then do
      let body ← pySubscript trafficData "body"
      pyContainsKey body "items"
    else pure false
  if cond1 then do
    let body ← pySubscript trafficData "body"
    pySubscript body "items"
  else do
    let hasData ← pyContainsKey trafficData "data"
    if hasData then pySubscript trafficData "data"
    else pure (JVal.arr [])

/-- Loop body of _match_traffic_geographically (src/main.py lines 138-152):
skip records without a truthy linkId; otherwise float-coerce speed and
travelTime with default 0 and keep roadName/createdDate with string
defaults. -/
def matchOneItem (item : JVal) : Except PyError (Option Sample) := do
  let linkIdOpt ← pyGet item "linkId"
  let linkId := linkIdOpt.getD .null
  if linkId.truthy then do
    let speedV ← pyGetD item "speed" (.num 0)
    let currentSpeed ← pyFloat speedV
    let travelV ← pyGetD item "travelTime" (.num 0)
    let travelTime ← pyFloat travelV
    let roadName ← pyGetD item "roadName" (.str "")
    let createdDate ← pyGetD item "createdDate" (.str "")
    pure (some ⟨linkId, currentSpeed, travelTime, roadName, createdDate, item⟩)
  else pure none

/-- The record loop of _match_traffic_geographically over the extracted
items. -/
def matchItemsLoop : List JVal → Except PyError (List Sample)
  | [] => .ok []
  | item :: rest => do
    let s ← matchOneItem item
    let tail ← matchItemsLoop rest
    match s with
    | some smp => .ok (smp :: tail)
    | none => .ok tail

/-- TrafficRouteMonitor._match_traffic_geographically (src/main.py lines
122-155): extract the provider records (body.items or data shape only), and
when the extracted value is truthy, iterate it collecting one sample per
record with a truthy linkId. The bbox is unpacked by the source but otherwise
unused. -/
def match_traffic_geographically (trafficData : JVal) (bbox : Bbox) :
    Except PyError (List Sample) := do
  let itemsV ← matchTrafficItems trafficData
  if itemsV.truthy then do
    let items ← pyIterate itemsV
    matchItemsLoop items
  else pure []

/-- Route-level data extracted by check_route_traffic from the fresh routing
engine response (src/main.py lines 719-724): planned duration and distance
plus the raw geometry value (route_info.get('geometry', '')). -/
structure RouteData where
  duration : ℚ
  distance : ℚ
  geometry : JVal

/-- The analysis result dict returned by check_route_traffic (src/main.py
lines 785-791); the timestamp string is not modelled. -/
structure AnalysisResult where
  routeData : RouteData
  trafficData : JVal
  matchedTraffic : List Sample
  bbox : Bbox

/-- Python `min` over a list of numbers. Python raises on an empty list;
every call site in the source guards nonemptiness, and the 0 returned here
for the empty list is never observed. -/
def pyListMin : List ℚ → ℚ
  | [] => 0
  | a :: as => as.foldl min a

/-- Python `max` over a list of numbers, with the same empty-list caveat as
pyListMin. -/
def pyListMax : List ℚ → ℚ
  | [] => 0
  | a :: as => as.foldl max a

/-- Mean of the matched samples' current speeds: the arithmetic mean the api
helpers compute when the matched list is nonempty. -/
def meanMatchedSpeed (result : AnalysisResult) : ℚ :=
  (result.matchedTraffic.map Sample.currentSpeed).sum /
    ((result.matchedTraffic.map Sample.currentSpeed).length : ℚ)

/-- Adjusted-route summary built by _extract_traffic_adjusted_route
(src/api.py lines 335-346). -/
structure AdjustedRoute where
  durationSeconds : ℚ
  distanceMeters : ℚ
  averageSpeedKmh : ℚ
  timeDifferenceSeconds : ℚ
  timeDifferencePercent : ℚ
  trafficSegments : Nat
  speedMinKmh : ℚ
  speedMaxKmh : ℚ

/-- _extract_traffic_adjusted_route (src/api.py lines 316-346): None when the
result has no matched traffic; otherwise the mean matched speed, the
traffic-adjusted duration ((distance_km / mean) * 3600 when the mean is
positive, the planned duration otherwise) and the derived delta metrics. -/
def extract_traffic_adjusted_route (result : AnalysisResult) : Option AdjustedRoute :=
  if result.matchedTraffic.isEmpty then none
  else
    let traffic_speeds := result.matchedTraffic.map Sample.currentSpeed
    let avg_traffic_speed := traffic_speeds.sum / (traffic_speeds.length : ℚ)
    let route_distance_km := result.routeData.distance / 1000
    let traffic_duration :=
      if avg_traffic_speed > 0 then route_distance_km / avg_traffic_speed * 3600
      else result.routeData.duration
    some
      { durationSeconds := traffic_duration
        distanceMeters := result.routeData.distance
        averageSpeedKmh := avg_traffic_speed
        timeDifferenceSeconds := traffic_duration - result.routeData.duration
        timeDifferencePercent :=
          if result.routeData.duration > 0 then
            (traffic_duration - result.routeData.duration) / result.routeData.duration * 100
          else 0
        trafficSegments := result.matchedTraffic.length
        speedMinKmh := pyListMin traffic_speeds
        speedMaxKmh := pyListMax traffic_speeds }

/-- Computed fields of the structure built by
_generate_traffic_adjusted_route_original_format (src/api.py lines 348-425);
the constant waypoint scaffolding and the wall-clock timestamp are not
modelled. -/
structure OriginalFormatRoute where
  trafficDuration : ℚ
  distance : ℚ
  geometry : JVal
  metaOriginalDuration : ℚ
  metaTimeDifferenceSeconds : ℚ
  metaTimeDifferencePercent : ℚ
  metaTrafficSegmentsUsed : Nat
  metaAverageTrafficSpeedKmh : ℚ

/-- _generate_traffic_adjusted_route_original_format (src/api.py lines
348-425): traffic-adjusted duration from the mean matched speed when matched
samples exist and the mean is positive, the planned duration otherwise, plus
the traffic metadata fields. -/
def generate_traffic_adjusted_route_original_format (result : AnalysisResult) :
    OriginalFormatRoute :=
  let route_data := result.routeData
  let matched_traffic := result.matchedTraffic
  let traffic_duration :=
    if !matched_traffic.isEmpty then
      let traffic_speeds := matched_traffic.map Sample.currentSpeed
      let avg_traffic_speed := traffic_speeds.sum / (traffic_speeds.length : ℚ)
      if avg_traffic_speed > 0 then
        route_data.distance / 1000 / avg_traffic_speed * 3600
      else route_data.duration
    else route_data.duration
  { trafficDuration := traffic_duration
    distance := route_data.distance
    geometry := route_data.geometry
    metaOriginalDuration := route_data.duration
    metaTimeDifferenceSeconds := traffic_duration - route_data.duration
    metaTimeDifferencePercent :=
      if route_data.duration > 0 then
        (traffic_duration - route_data.duration) / route_data.duration * 100
      else 0
    metaTrafficSegmentsUsed := matched_traffic.length
    metaAverageTrafficSpeedKmh :=
      if !matched_traffic.isEmpty then
        (matched_traffic.map Sample.currentSpeed).sum / (matched_traffic.length : ℚ)
      else 0 }

/-- Waypoint loop of _validate_route_data (src/api.py lines 264-271): every
waypoint must be a dict with a location whose `in`-probe for latitude and
longitude succeeds and finds both keys. -/
def checkWaypoints : List JVal → Except PyError Bool
  | [] => pure true
  | wp :: rest =>
    match wp with
    | .obj _ => do
      let hasLoc ← pyContainsKey wp "location"
      if !hasLoc then pure false
      else do
        let location ← pySubscript wp "location"
        let hasLat ← pyContainsKey location "latitude"
        if !hasLat then pure false
        else do
          let hasLng ← pyContainsKey location "longitude"
          if !hasLng then pure false
          else checkWaypoints rest
    | _ => pure false

/-- Failing-aware core of _validate_route_data (src/api.py lines 241-286);
any raised error is caught by the surrounding try/except and turned into
False by validate_route_data. -/
def validateRouteDataAux (route_data : JVal) : Except PyError Bool :=
  match route_data with
  | .obj _ => do
    let hasResult ← pyContainsKey route_data "result"
    if !hasResult then pure false
    else do
      let resultV ← pySubscript route_data "result"
      match resultV with
      | .arr [] => pure false
      | .arr (result :: _) => do
        let hasWp ← pyContainsKey result "waypoints"
        if !hasWp then pure false
        else do
          let hasRt ← pyContainsKey result "routes"
          if !hasRt then pure false
          else do
            let waypoints ← pySubscript result "waypoints"
            match waypoints with
            | .arr wps =>
              if wps.length < 2 then pure false
              else do
                let ok ← checkWaypoints wps
                if !ok then pure false
                else do
                  let routes ← pySubscript result "routes"
                  match routes with
                  | .arr [] => pure false
                  | .arr (route :: _) =>
                    match route with
                    | .obj _ => do
                      let hasDur ← pyContainsKey route "duration"
                      if !hasDur then pure false
                      else do
                        let hasDist ← pyContainsKey route "distance"
                        pure hasDist
                    | _ => pure false
                  | _ => pure false
            | _ => pure false
      | _ => pure false
  | _ => pure false

/-- _validate_route_data (src/api.py lines 239-289): structural validation of
the route_data value; any exception raised inside is caught and yields
False. -/
def validate_route_data (route_data : JVal) : Bool :=
  match validateRouteDataAux route_data with
  | .ok b => b
  | .error _ => false

/-- Payload built by _extract_traffic_adjusted_route_simple (src/api.py lines
427-455): either the no_data placeholder (duration, zero time difference and
the "no_data" label) or the full classification by time-difference
percentage. -/
structure SimpleAdjusted where
  durationSeconds : ℚ
  timeDifferenceSeconds : ℚ
  timeDifferenceMinutes : Option ℚ
  trafficCondition : String
  averageSpeedKmh : Option ℚ
  deriving Repr

/-- _extract_traffic_adjusted_route_simple (src/api.py lines 427-455). -/
def extract_traffic_adjusted_route_simple (result : AnalysisResult) : SimpleAdjusted :=
  match extract_traffic_adjusted_route result with
  | none =>
    { durationSeconds := result.routeData.duration
      timeDifferenceSeconds := 0
      timeDifferenceMinutes := none
      trafficCondition := "no_data"
      averageSpeedKmh := none }
  | some ta =>
    let condition :=
      if ta.timeDifferencePercent > 20 then "heavy_delay"
      else if ta.timeDifferencePercent > 10 then "moderate_delay"
      else if ta.timeDifferencePercent < -10 then "faster_than_expected"
      else "normal"
    { durationSeconds := ta.durationSeconds
      timeDifferenceSeconds := ta.timeDifferenceSeconds
      timeDifferenceMinutes := some (ta.timeDifferenceSeconds / 60)
      trafficCondition := condition
      averageSpeedKmh := some ta.averageSpeedKmh }

/-- Success payload of POST /analyze-route (src/api.py lines 103-121); the
route name, wall-clock timestamp and the recommendation display strings are
not modelled. -/
structure AnalyzeRoutePayload where
  durationSeconds : ℚ
  distanceMeters : ℚ
  averageSpeedKmh : ℚ
  segmentsAnalyzed : Nat
  bboxUsed : Bbox
  trafficAdjustedRoute : Option AdjustedRoute
  trafficAdjustedRouteOriginalFormat : OriginalFormatRoute

/-- Success payload of POST /analyze-route-simple (src/api.py lines
214-222); the route name is not modelled. -/
structure AnalyzeRouteSimplePayload where
  originalDurationSeconds : ℚ
  originalDistanceMeters : ℚ
  trafficSegmentsFound : Nat
  trafficAdjustedRoute : SimpleAdjusted
  trafficAdjustedRouteOriginalFormat : OriginalFormatRoute

/-- The responses the two analysis handlers can produce: 400 bad requests
with their message, the 500 branch for a failed analysis (check returned
None), the 500 branch of the final exception handler, and the 200 payloads
of each endpoint. -/
inductive ApiResponse where
  | badRequest (msg : String)
  | failedAnalysis
  | internalError (e : PyError)
  | ok (p : AnalyzeRoutePayload)
  | okSimple (p : AnalyzeRouteSimplePayload)

/-- Python `len(v)`: length of a list, string or dict; numbers, booleans and
None have no length. -/
def pyLen : JVal → Except PyError Nat
  | .arr items => .ok items.length
  | .obj fields => .ok fields.length
  | .str s => .ok s.length
  | _ => .error .typeError

/-- Method names defined on the RouteProcessor class
(src/route_processor.py lines 7-87): the class defines only these, so looking
up any other attribute on a RouteProcessor instance raises AttributeError. -/
def routeProcessorMethods : List String :=
  ["__init__", "get_route_from_osrm", "match_traffic_to_network",
   "calculate_route_bbox", "calculate_updated_route"]

/-- Attribute lookup on the monitor's RouteProcessor instance. -/
def getattrRouteProcessor (name : String) : Except PyError Unit :=
  if name ∈ routeProcessorMethods then .ok () else .error .attributeError

/-- The call self.route_processor.extract_waypoints_from_route_data(...) made
by check_route_traffic (src/main.py line 687). RouteProcessor defines no
method of this name, so the attribute lookup raises AttributeError before any
method body could run; the ok branch is unreachable and there is no source
body to model behind it. The value type is what the caller's tuple
destructuring and falsiness checks expect. -/
def extract_waypoints_from_route_data (routeData : JVal) :
    Except PyError (Option ((ℚ × ℚ) × (ℚ × ℚ))) :=
  match getattrRouteProcessor "extract_waypoints_from_route_data" with
  | .error e => .error e
  | .ok _ => .error .attributeError

/-- The call self.route_processor.match_traffic_to_route(...) made by
check_route_traffic (src/main.py lines 729-731): as with
extract_waypoints_from_route_data, RouteProcessor defines no such method and
the attribute lookup raises AttributeError. -/
def match_traffic_to_route (geometry : JVal) (trafficData : JVal) :
    Except PyError (List Sample) :=
  match getattrRouteProcessor "match_traffic_to_route" with
  | .error e => .error e
  | .ok _ => .error .attributeError

/-- Record probe loop of _analyze_traffic_data (src/main.py lines 827-861):
the first field-membership test on each record raises TypeError on records
that are not dicts, lists or strings; numeric parse failures are caught
internally and raise nothing. -/
def probeTrafficItems : List JVal → Except PyError Unit
  | [] => pure ()
  | item :: rest => do
    let _ ← pyContainsKey item "trafficLevel"
    probeTrafficItems rest

/-- Per-field debugging walk of _analyze_traffic_data's empty-item-list
branch (src/main.py lines 896-911): for a dict value under the key "body"
that has a totalCount and a nonempty items list, `.keys()` is called on the
first item, raising AttributeError when it is not a dict. -/
def probeTrafficFields : List (String × JVal) → Except PyError Unit
  | [] => pure ()
  | (key, value) :: rest =>
    match value with
    | .obj valueFields =>
      if key == "body" && (lookupStr "totalCount" valueFields).isSome then
        match lookupStr "items" valueFields with
        | some itemsV => do
          let m ← pyLen itemsV
          if m > 0 then do
            let first ← pyIndex itemsV 0
            match first with
            | .obj _ => probeTrafficFields rest
            | _ => .error .attributeError
          else probeTrafficFields rest
        | none => probeTrafficFields rest
      else probeTrafficFields rest
    | _ => probeTrafficFields rest

/-- Error behavior of the print-only _analyze_traffic_data (src/main.py lines
802-911): `traffic_data.keys()` raises AttributeError on a non-dict payload,
then the records extracted from whichever of the five payload shapes is
present are probed by probeTrafficItems, or probeTrafficFields walks the
payload when no records were found. The printed output itself is not
modelled. -/
def analyzeTrafficDataEffect (trafficData : JVal) : Except PyError Unit :=
  match trafficData with
  | .obj fields => do
    let bodyCond ←
      match lookupStr "body" fields with
      | some body => pyContainsKey body "items"
      | none => pure false
    let dataItems ←
      if bodyCond then do
        let body ← pySubscript trafficData "body"
        pySubscript body "items"
      else
        match lookupStr "data" fields with
        | some v => pure v
        | none =>
          match lookupStr "response" fields with
          | some resp => pyGetD resp "data" (.arr [])
          | none =>
            match lookupStr "result" fields with
            | some v => pure v
            | none => pure (.arr [])
    let n ← pyLen dataItems
    if n > 0 then do
      let items ← pyIterate dataItems
      probeTrafficItems items
    else probeTrafficFields fields
  | _ => .error .attributeError

/-- TrafficRouteMonitor.check_route_traffic (src/main.py lines 682-800). The
traffic-provider and routing-engine HTTP calls are oracle parameters
returning the parsed JSON or None after a network failure; the database write
of store_traffic_data targets the traffic_history table, which nothing in the
analysis reads, and the remaining helpers only print (their error behavior is
analyzeTrafficDataEffect). The first statement looks up the undefined
RouteProcessor method extract_waypoints_from_route_data, so every call raises
AttributeError. -/
def check_route_traffic
    (fetchTraffic : Bbox → Option JVal)
    (getOsrm : ℚ × ℚ → ℚ × ℚ → Option JVal)
    (routeData : JVal) : Except PyError (Option AnalysisResult) := do
  let wp ← extract_waypoints_from_route_data routeData
  match wp with
  | none => pure none
  | some (startCoords, endCoords) =>
    let buffer : ℚ := 1 / 100
    let minLng := min startCoords.2 endCoords.2 - buffer
    let maxLng := max startCoords.2 endCoords.2 + buffer
    let minLat := min startCoords.1 endCoords.1 - buffer
    let maxLat := max startCoords.1 endCoords.1 + buffer
    let bbox : Bbox := (minLng, maxLng, minLat, maxLat)
    match fetchTraffic bbox with
    | none => pure none
    | some trafficData =>
      match getOsrm startCoords endCoords with
      | none => pure none
      | some currentRoute => do
        let routes ← pySubscript currentRoute "routes"
        let routeInfo ← pyIndex routes 0
        let durationV ← pySubscript routeInfo "duration"
        let duration ← pyNumValue durationV
        let distanceV ← pySubscript routeInfo "distance"
        let distance ← pyNumValue distanceV
        let _ ← analyzeTrafficDataEffect trafficData
        let geometry ← pyGetD routeInfo "geometry" (.str "")
        let matched ← match_traffic_to_route geometry trafficData
        let geographic ← match_traffic_geographically trafficData bbox
        let matchedTraffic :=
          if !matched.isEmpty then matched
          else if !geographic.isEmpty then geographic
          else matched
        pure (some ⟨⟨duration, distance, geometry⟩, trafficData, matchedTraffic, bbox⟩)

/-- _convert_waypoints_to_route_data (src/api.py lines 291-314) over the
request's waypoint values: each must be a dict (wp.get raises AttributeError
otherwise) with latitude and longitude keys (KeyError otherwise); the
waypointType tags and default names are built as in the source. The returned
dict is assigned but then superseded by the routing-engine response, so only
its errors are observable. -/
def convert_waypoints_to_route_data (waypoints : List JVal) : Except PyError JVal := do
  let total := waypoints.length
  let rec build : Nat → List JVal → Except PyError (List JVal)
    | _, [] => pure []
    | i, wp :: rest => do
      let wtype : String :=
        if i = 0 then "break" else if i = total - 1 then "last" else "via"
      let name ← pyGetD wp "name" (.str ("Point " ++ toString (i + 1)))
      let lng ← pySubscript wp "longitude"
      let lat ← pySubscript wp "latitude"
      let tail ← build (i + 1) rest
      pure (.obj [("waypointType", .str wtype), ("name", name),
        ("location", .obj [("longitude", lng), ("latitude", lat)])] :: tail)
  let routeWaypoints ← build 0 waypoints
  pure (.obj [("resultCode", .str "Ok"),
    ("result", .arr [.obj [("waypoints", .arr routeWaypoints), ("routes", .arr [])]])])

/-- POST /analyze-route handler (src/api.py lines 25-139) over an already
parsed request body (None models a body Flask could not parse as JSON). The
monitor call is a parameter so the handler flow can be stated for any
analysis outcome; the Bool of the result records whether that call was
reached. Any error escaping the body is caught by the final except clause
and answered as a 500 internal error; building the success payload divides
by the route duration, so a zero duration also lands there. -/
def analyze_route (checkFn : JVal → Except PyError (Option AnalysisResult))
    (body : Option JVal) : ApiResponse × Bool :=
  match body with
  | none => (.badRequest "No JSON data provided", false)
  | some data =>
    if !data.truthy then (.badRequest "No JSON data provided", false)
    else
      match pyGet data "route_data" with
      | .error e => (.internalError e, false)
      | .ok rdOpt =>
        let route_data := rdOpt.getD .null
        if !route_data.truthy then (.badRequest "route_data is required", false)
        else if !validate_route_data route_data then
          (.badRequest "Invalid route_data structure", false)
        else
          match checkFn route_data with
          | .error e => (.internalError e, true)
          | .ok none => (.failedAnalysis, true)
          | .ok (some result) =>
            if result.routeData.duration = 0 then (.internalError .zeroDivisionError, true)
            else
              (.ok
                { durationSeconds := result.routeData.duration
                  distanceMeters := result.routeData.distance
                  averageSpeedKmh := result.routeData.distance / 1000 /
                    (result.routeData.duration / 3600)
                  segmentsAnalyzed := result.matchedTraffic.length
                  bboxUsed := result.bbox
                  trafficAdjustedRoute := extract_traffic_adjusted_route result
                  trafficAdjustedRouteOriginalFormat :=
                    generate_traffic_adjusted_route_original_format result }, true)

/-- Start and end coordinate extraction of analyze_route_simple (src/api.py
lines 198-199): waypoints[0] and waypoints[-1] (index n-1) with their
latitude and longitude values, raising as the Python subscripts would. -/
def simpleStartEndCoords (waypointsV : JVal) (n : Nat) :
    Except PyError ((JVal × JVal) × (JVal × JVal)) := do
  let wp0 ← pyIndex waypointsV 0
  let lat0 ← pySubscript wp0 "latitude"
  let lng0 ← pySubscript wp0 "longitude"
  let wpl ← pyIndex waypointsV (n - 1)
  let latl ← pySubscript wpl "latitude"
  let lngl ← pySubscript wpl "longitude"
  pure ((lat0, lng0), (latl, lngl))

/-- POST /analyze-route-simple handler (src/api.py lines 141-237) over a
parsed request body. The routing-engine call takes the raw latitude and
longitude values (Python would interpolate any value into the request URL),
and the monitor call is a parameter as in analyze_route; the Bool records
whether the monitor call was reached. Errors escaping any step are caught by
the final except clause as a 500 internal error. -/
def analyze_route_simple
    (getOsrmJ : JVal × JVal → JVal × JVal → Option JVal)
    (checkFn : JVal → Except PyError (Option AnalysisResult))
    (body : Option JVal) : ApiResponse × Bool :=
  match body with
  | none => (.badRequest "waypoints array is required", false)
  | some data =>
    if !data.truthy then (.badRequest "waypoints array is required", false)
    else
      match pyContainsKey data "waypoints" with
      | .error e => (.internalError e, false)
      | .ok false => (.badRequest "waypoints array is required", false)
      | .ok true =>
        match pySubscript data "waypoints" with
        | .error e => (.internalError e, false)
        | .ok waypointsV =>
          match pyLen waypointsV with
          | .error e => (.internalError e, false)
          | .ok n =>
            if n < 2 then (.badRequest "At least 2 waypoints are required", false)
            else
              match pyIterate waypointsV with
              | .error e => (.internalError e, false)
              | .ok wps =>
                match convert_waypoints_to_route_data wps with
                | .error e => (.internalError e, false)
                | .ok _routeData =>
                  match simpleStartEndCoords waypointsV n with
                  | .error e => (.internalError e, false)
                  | .ok (startC, endC) =>
                    match getOsrmJ startC endC with
                    | none =>
                      (.badRequest "Could not calculate route between waypoints", false)
                    | some osrmRoute =>
                      match checkFn osrmRoute with
                      | .error e => (.internalError e, true)
                      | .ok none => (.failedAnalysis, true)
                      | .ok (some result) =>
                        (.okSimple
                          { originalDurationSeconds := result.routeData.duration
                            originalDistanceMeters := result.routeData.distance
                            trafficSegmentsFound := result.matchedTraffic.length
                            trafficAdjustedRoute :=
                              extract_traffic_adjusted_route_simple result
                            trafficAdjustedRouteOriginalFormat :=
                              generate_traffic_adjusted_route_original_format result }, true)

/-- A request body for /analyze-route that passes every boundary check: two
waypoints with locations and one route carrying duration and distance. -/
def c2ValidRouteData : JVal :=
  .obj [("result", .arr [.obj
    [("waypoints", .arr
      [.obj [("location", .obj [("latitude", .num 37), ("longitude", .num 126)])],
       .obj [("location", .obj [("latitude", .num 38), ("longitude", .num 127)])]]),
     ("routes", .arr [.obj [("duration", .num 600), ("distance", .num 9000)]])]])]

/-- The /analyze-route request body wrapping c2ValidRouteData. -/
def c2ValidBody : JVal := .obj [("route_data", c2ValidRouteData)]

/-- A two-waypoint body for /analyze-route-simple. -/
def c2SimpleWaypoints : List JVal :=
  [.obj [("latitude", .num 37), ("longitude", .num 126)],
   .obj [("latitude", .num 38), ("longitude", .num 127)]]

/-- The /analyze-route-simple request body wrapping c2SimpleWaypoints. -/
def c2SimpleBody : JVal := .obj [("waypoints", .arr c2SimpleWaypoints)]

/-- The request body of the spec's /analyze-route-simple scenario: waypoints
(37.577833, 126.812902) and (37.538431, 126.895589). -/
def c1ScenarioBody : JVal :=
  .obj [("waypoints", .arr
    [.obj [("latitude", .num (37577833 / 1000000)),
           ("longitude", .num (126812902 / 1000000)),
           ("name", .str "Start Location")],
     .obj [("latitude", .num (37538431 / 1000000)),
           ("longitude", .num (126895589 / 1000000)),
           ("name", .str "End Location")]])]

/-- The routing-engine stub response of the scenario: one route of duration
600.3 s and distance 9703.7 m. -/
def c1OsrmRoute : JVal :=
  .obj [("routes", .arr [.obj [("duration", .num (6003 / 10)),
    ("distance", .num (97037 / 10)), ("geometry", .str "")]])]

/-- A traffic-provider payload carrying no samples. -/
def c1TrafficPayload : JVal := .obj [("body", .obj [("items", .arr [])])]

/-- One monitored route held in TrafficRouteMonitor.routes (src/main.py
lines 41-46): endpoint coordinates, bounding box and the last routing-engine
response. -/
structure RouteInfo where
  startCoords : ℚ × ℚ
  endCoords : ℚ × ℚ
  bbox : Bbox
  currentRoute : JVal

/-- What one iteration of update_routes produced for one route id. -/
inductive RouteUpdateOutcome where
  | fetchFailed
  | osrmFailed
  | updated (changes : List ChangeEvent) (newRoute : JVal)

/-- Snapshot store and insertion clock threaded through an update cycle. -/
structure MonitorState where
  table : List SnapRow
  clock : Nat

/-- One record matched by RouteProcessor.match_traffic_to_network
(src/route_processor.py lines 47-54). -/
structure NetMatch where
  linkId : JVal
  lng : ℚ
  lat : ℚ
  speedLimit : ℚ
  currentSpeed : JVal
  trafficLevel : JVal

/-- Record loop of match_traffic_to_network (src/route_processor.py lines
36-54) with the moct_link lookup as a database oracle. -/
def netMatchLoop (linkDb : JVal → Option (ℚ × ℚ × ℚ)) :
    List JVal → Except PyError (List NetMatch)
  | [] => pure []
  | item :: rest => do
    let hasLink ← pyContainsKey item "linkId"
    if hasLink then do
      let lid ← pySubscript item "linkId"
      match linkDb lid with
      | some (lng, lat, speedLimit) => do
        let currentSpeed ← pyGetD item "speed" (.num 0)
        let trafficLevel ← pyGetD item "trafficLevel" (.num 0)
        let tail ← netMatchLoop linkDb rest
        pure (⟨lid, lng, lat, speedLimit, currentSpeed, trafficLevel⟩ :: tail)
      | none => netMatchLoop linkDb rest
    else netMatchLoop linkDb rest

/-- RouteProcessor.match_traffic_to_network (src/route_processor.py lines
28-58): iterate traffic_data.get('data', []) matching each linkId-bearing
record against the link table. -/
def match_traffic_to_network (linkDb : JVal → Option (ℚ × ℚ × ℚ))
    (trafficData : JVal) : Except PyError (List NetMatch) := do
  let dataV ← pyGetD trafficData "data" (.arr [])
  let items ← pyIterate dataV
  netMatchLoop linkDb items

/-- RouteProcessor.calculate_updated_route (src/route_processor.py lines
76-86) matches the traffic data against the network; the wrapping dict it
returns (original route, matched data, timestamp) is bound by update_routes
to a variable that is never read, so only the matched list and any raised
error are kept. -/
def calculate_updated_route (linkDb : JVal → Option (ℚ × ℚ × ℚ))
    (originalRoute trafficData : JVal) : Except PyError (List NetMatch) :=
  match_traffic_to_network linkDb trafficData

/-- TrafficRouteMonitor.update_routes (src/main.py lines 63-120): process
every monitored route in order. A route whose traffic fetch returns None is
recorded as fetchFailed and the loop moves on; after a successful fetch the
raw payload is stored (traffic_history, unread here), the unused updated
route is computed, and a fresh engine route is requested — None records
osrmFailed and the loop moves on; otherwise a snapshot is stored and changes
are detected before the next route is processed. -/
def update_routes (fetchTraffic : Bbox → Option JVal)
    (getOsrm : ℚ × ℚ → ℚ × ℚ → Option JVal)
    (linkDb : JVal → Option (ℚ × ℚ × ℚ)) :
    List (String × RouteInfo) → MonitorState →
    Except PyError (List (String × RouteUpdateOutcome) × MonitorState)
  | [], st => .ok ([], st)
  | (routeId, info) :: rest, st =>
    match fetchTraffic info.bbox with
    | none =>
      (update_routes fetchTraffic getOsrm linkDb rest st).map
        (fun r => ((routeId, .fetchFailed) :: r.1, r.2))
    | some trafficData => do
      let _ ← calculate_updated_route linkDb info.currentRoute trafficData
      match getOsrm info.startCoords info.endCoords with
      | none =>
        (update_routes fetchTraffic getOsrm linkDb rest st).map
          (fun r => ((routeId, .osrmFailed) :: r.1, r.2))
      | some currentRoute => do
        let routes ← pySubscript currentRoute "routes"
        let routeData ← pyIndex routes 0
        let durationV ← pySubscript routeData "duration"
        let _ ← pyNumValue durationV
        let distanceV ← pySubscript routeData "distance"
        let _ ← pyNumValue distanceV
        let table' ← store_route_snapshot st.clock routeId routeData st.table
        let changes ← detect_changes routeId table'
        (update_routes fetchTraffic getOsrm linkDb rest ⟨table', st.clock + 1⟩).map
          (fun r => ((routeId, .updated changes currentRoute) :: r.1, r.2))

theorem pyAbs_eq_abs (q : ℚ) : pyAbs q = |q| := by
  unfold pyAbs
  split_ifs with h
  · exact (abs_of_neg h).symm
  · exact (abs_of_nonneg (not_lt.mp h)).symm

/-- C10: the speed-based classification is a monotone step function of mean
speed with boundary values belonging to the higher bucket: s < 15 classifies
as congested, 15 ≤ s < 30 as heavy traffic, 30 ≤ s < 50 as moderate traffic,
50 ≤ s as good flow; in particular speeds 10, 20, 35, 55 classify as
congested, heavy_traffic, moderate_traffic, good_flow respectively. -/
theorem c10_assess_traffic_condition_buckets :
    (∀ s : ℚ, s < 15 → assess_traffic_condition s = "congested") ∧
    (∀ s : ℚ, 15 ≤ s → s < 30 → assess_traffic_condition s = "heavy_traffic") ∧
    (∀ s : ℚ, 30 ≤ s → s < 50 → assess_traffic_condition s = "moderate_traffic") ∧
    (∀ s : ℚ, 50 ≤ s → assess_traffic_condition s = "good_flow") ∧
    assess_traffic_condition 10 = "congested" ∧
    assess_traffic_condition 20 = "heavy_traffic" ∧
    assess_traffic_condition 35 = "moderate_traffic" ∧
    assess_traffic_condition 55 = "good_flow" := by
  refine ⟨?_, ?_, ?_, ?_, ?_, ?_, ?_, ?_⟩
  · intro s h
    unfold assess_traffic_condition
    split_ifs with h1 h2 h3 <;> first | rfl | linarith
  · intro s h h'
    unfold assess_traffic_condition
    split_ifs with h1 h2 h3 <;> first | rfl | linarith
  · intro s h h'
    unfold assess_traffic_condition
    split_ifs with h1 h2 h3 <;> first | rfl | linarith
  · intro s h
    unfold assess_traffic_condition
    split_ifs with h1 h2 h3 <;> first | rfl | linarith
  · norm_num [assess_traffic_condition]
  · norm_num [assess_traffic_condition]
  · norm_num [assess_traffic_condition]
  · norm_num [assess_traffic_condition]

/-- C10 witness: the bucket characterization applied at the concrete speeds
12, 17, 42 and 63 km/h. -/
theorem c10_assess_traffic_condition_buckets_witness :
    assess_traffic_condition 12 = "congested" ∧
    assess_traffic_condition 17 = "heavy_traffic" ∧
    assess_traffic_condition 42 = "moderate_traffic" ∧
    assess_traffic_condition 63 = "good_flow" :=
  ⟨c10_assess_traffic_condition_buckets.1 12 (by norm_num),
   c10_assess_traffic_condition_buckets.2.1 17 (by norm_num) (by norm_num),
   c10_assess_traffic_condition_buckets.2.2.1 42 (by norm_num) (by norm_num),
   c10_assess_traffic_condition_buckets.2.2.2.1 63 (by norm_num)⟩

/-- Helper: the value of detect_changes once the sorted snapshot query for the
route id is known and both older baselines are nonzero. -/
theorem detect_changes_eq_of_sorted (routeId : String) (table : List SnapRow)
    (current previous : SnapRow) (rest : List SnapRow)
    (h : rowsByTsDesc routeId table = current :: previous :: rest)
    (hd : previous.duration ≠ 0) (hs : previous.avgSpeed ≠ 0) :
    detect_changes routeId table = .ok
      ((if 30 < pyAbs (current.duration - previous.duration) then
          [⟨"duration", previous.duration, current.duration,
            (current.duration - previous.duration) / previous.duration * 100⟩]
        else []) ++
       (if 2 < pyAbs (current.avgSpeed - previous.avgSpeed) then
          [⟨"avg_speed", previous.avgSpeed, current.avgSpeed,
            (current.avgSpeed - previous.avgSpeed) / previous.avgSpeed * 100⟩]
        else [])) := by
  unfold detect_changes
  rw [h]
  simp only [List.take]
  by_cases h1 : 30 < pyAbs (current.duration - previous.duration) <;>
    by_cases h2 : 2 < pyAbs (current.avgSpeed - previous.avgSpeed) <;>
    simp [h1, h2, pyDiv, hd, hs, Bind.bind, Except.bind]

/-- C3 (amended): for every route id, detect_changes returns the empty list
when fewer than two snapshots exist for that id; when two or more exist it
compares the two most recent (ordered by timestamp descending) and, for each
of the two metrics (duration with threshold 30 s, average speed with
threshold 2 km/h) whose older baseline is nonzero, returns no event when the
absolute change is at or below the threshold and exactly one event when the
absolute change is strictly above it. -/
theorem c3_detect_changes_thresholds :
    (∀ routeId table, (rowsByTsDesc routeId table).length < 2 →
      detect_changes routeId table = .ok []) ∧
    (∀ routeId table current previous rest,
      rowsByTsDesc routeId table = current :: previous :: rest →
      previous.duration ≠ 0 → previous.avgSpeed ≠ 0 →
      ∃ evs, detect_changes routeId table = .ok evs ∧
        (evs.filter (fun e => e.changeType == "duration")).length =
          (if 30 < |current.duration - previous.duration| then 1 else 0) ∧
        (evs.filter (fun e => e.changeType == "avg_speed")).length =
          (if 2 < |current.avgSpeed - previous.avgSpeed| then 1 else 0)) := by
  constructor
  · intro routeId table hlen
    rcases h : rowsByTsDesc routeId table with _ | ⟨a, _ | ⟨b, t⟩⟩
    · unfold detect_changes; rw [h]; rfl
    · unfold detect_changes; rw [h]; rfl
    · rw [h] at hlen; simp at hlen; omega
  · intro routeId table current previous rest h hd hs
    refine ⟨_, detect_changes_eq_of_sorted routeId table current previous rest h hd hs, ?_, ?_⟩ <;>
      (rw [← pyAbs_eq_abs]
       by_cases h1 : 30 < pyAbs (current.duration - previous.duration) <;>
       by_cases h2 : 2 < pyAbs (current.avgSpeed - previous.avgSpeed) <;>
       simp [h1, h2, List.filter_append, List.filter])

/-- C3 witness: with one snapshot no events; with snapshots whose duration
changed by 31 s (above threshold) and whose speed changed by exactly 2 km/h
(at threshold, not above), exactly one duration event and no speed event. -/
theorem c3_detect_changes_thresholds_witness :
    detect_changes "r1" [⟨0, "r1", 100, 1000, 10⟩] = .ok [] ∧
    ∃ evs, detect_changes "r1"
        [⟨0, "r1", 100, 1000, 10⟩, ⟨1, "r1", 131, 1000, 12⟩] = .ok evs ∧
      (evs.filter (fun e => e.changeType == "duration")).length = 1 ∧
      (evs.filter (fun e => e.changeType == "avg_speed")).length = 0 := by
  constructor
  · exact c3_detect_changes_thresholds.1 "r1" [⟨0, "r1", 100, 1000, 10⟩] (by
      norm_num [rowsByTsDesc, sortTsDesc, insertTsDesc])
  · obtain ⟨evs, h1, h2, h3⟩ := c3_detect_changes_thresholds.2 "r1"
      [⟨0, "r1", 100, 1000, 10⟩, ⟨1, "r1", 131, 1000, 12⟩]
      ⟨1, "r1", 131, 1000, 12⟩ ⟨0, "r1", 100, 1000, 10⟩ []
      (by norm_num [rowsByTsDesc, sortTsDesc, insertTsDesc]) (by norm_num) (by norm_num)
    refine ⟨evs, h1, ?_, ?_⟩
    · rw [h2]; norm_num
    · rw [h3]; norm_num

/-- C3 counterexample: two snapshots whose durations differ by exactly the
30 s threshold produce no change event, although the claim requires exactly
one event when the absolute change is at or above the threshold. -/
theorem c3_threshold_boundary_counterexample :
    detect_changes "r1" [⟨0, "r1", 100, 1000, 10⟩, ⟨1, "r1", 130, 1000, 10⟩] = .ok [] ∧
    |(130 : ℚ) - 100| = 30 := by
  constructor
  · norm_num [detect_changes, rowsByTsDesc, sortTsDesc, insertTsDesc, pyAbs, pyDiv,
      Bind.bind, Except.bind]
  · norm_num

/-- C4: with an older snapshot whose duration is 0 and a newer one whose
duration is 31 s, detect_changes raises ZeroDivisionError computing the
percentage change (the guard the claim requires is absent); with nonzero
older baselines the percentage change is computed relative to the older
value as (new - old) / old * 100, e.g. durations 500 then 560 give 12. -/
theorem c4_zero_baseline_division_fault :
    detect_changes "r1" [⟨0, "r1", 0, 1000, 10⟩, ⟨1, "r1", 31, 1000, 10⟩] =
      .error .zeroDivisionError ∧
    detect_changes "r1" [⟨0, "r1", 500, 1000, 10⟩, ⟨1, "r1", 560, 1000, 10⟩] =
      .ok [⟨"duration", 500, 560, 12⟩] := by
  constructor <;>
    norm_num [detect_changes, rowsByTsDesc, sortTsDesc, insertTsDesc, pyAbs, pyDiv,
      Bind.bind, Except.bind]

/-- C5: store_route_snapshot stores avg_speed as distance / duration on the
raw metre and second values: a route of 3600 s and 7200 m is stored with
avg_speed 2 (m/s), while the km/h expression (distance_m / 1000) /
(duration_s / 3600) evaluates to 36/5 = 7.2, so the stored value is not the
claimed km/h quantity. -/
theorem c5_stored_avg_speed_not_kmh :
    store_route_snapshot 0 "r1"
        (JVal.obj [("duration", .num 3600), ("distance", .num 7200)]) [] =
      .ok [⟨0, "r1", 3600, 7200, 2⟩] ∧
    ((7200 : ℚ) / 1000) / ((3600 : ℚ) / 3600) = 36 / 5 ∧
    (2 : ℚ) ≠ 36 / 5 := by
  refine ⟨?_, by norm_num, by norm_num⟩
  have hne : ("duration" : String) ≠ "distance" := by decide
  norm_num [store_route_snapshot, pyGetD, pyGet, pyNumValue, lookupStr, hne,
    Bind.bind, Except.bind, Except.map]

/-- C8 (amended): for the flat sample list used for matching, the body.items
and data payload shapes carrying the same records normalize to the same
sample list; the response.data, result and bare-list shapes are not
recognized by the matching normalization and yield the empty sample list
(for a bare list, provided the list does not contain the strings "body" or
"data" as elements, which Python's `in` would treat as membership); a record
whose numeric fields (speed, travel time) are missing is normalized with
value 0, but an unparseable numeric field raises ValueError and fails the
whole batch. -/
theorem c8_matching_normalization_shapes :
    (∀ items bbox,
      match_traffic_geographically
        (.obj [("body", .obj [("items", .arr items)])]) bbox =
      match_traffic_geographically (.obj [("data", .arr items)]) bbox) ∧
    (∀ items bbox,
      match_traffic_geographically
        (.obj [("response", .obj [("data", .arr items)])]) bbox = .ok []) ∧
    (∀ items bbox,
      match_traffic_geographically (.obj [("result", .arr items)]) bbox = .ok []) ∧
    (∀ items bbox, arrHasStr items "body" = false → arrHasStr items "data" = false →
      match_traffic_geographically (.arr items) bbox = .ok []) ∧
    (∀ bbox, match_traffic_geographically
        (.obj [("data", .arr [.obj [("linkId", .str "L1")]])]) bbox =
      .ok [⟨.str "L1", 0, 0, .str "", .str "", .obj [("linkId", .str "L1")]⟩]) ∧
    (∀ bbox, match_traffic_geographically
        (.obj [("data", .arr [.obj [("linkId", .str "L1"), ("speed", .str "N/A")]])]) bbox =
      .error .valueError) := by
  have h1 : ("data" : String) ≠ "body" := by decide
  have h2 : ("response" : String) ≠ "body" := by decide
  have h3 : ("response" : String) ≠ "data" := by decide
  have h4 : ("result" : String) ≠ "body" := by decide
  have h5 : ("result" : String) ≠ "data" := by decide
  have h6 : ("linkId" : String) ≠ "speed" := by decide
  have h7 : ("linkId" : String) ≠ "travelTime" := by decide
  have h8 : ("linkId" : String) ≠ "roadName" := by decide
  have h9 : ("linkId" : String) ≠ "createdDate" := by decide
  have h10 : ("speed" : String) ≠ "travelTime" := by decide
  have h11 : ("speed" : String) ≠ "roadName" := by decide
  have h12 : ("speed" : String) ≠ "createdDate" := by decide
  have hp : parsePyFloat "N/A" = none := rfl
  refine ⟨?_, ?_, ?_, ?_, ?_, ?_⟩
  case refine_4 =>
    intro items bbox hb hd
    simp [match_traffic_geographically, matchTrafficItems, matchOneItem, matchItemsLoop,
      pyContainsKey, pySubscript, pyGet, pyGetD, pyIterate, pyFloat, lookupStr, JVal.truthy,
      hb, hd, Bind.bind, Except.bind, Except.map, Pure.pure, Except.pure]
  all_goals
    intro items
    try intro bbox
  all_goals
    simp [match_traffic_geographically, matchTrafficItems, matchOneItem, matchItemsLoop,
      pyContainsKey, pySubscript, pyGet, pyGetD, pyIterate, pyFloat, lookupStr, JVal.truthy,
      h1, h2, h3, h4, h5, h6, h7, h8, h9, h10, h11, h12, hp,
      Bind.bind, Except.bind, Except.map, Pure.pure, Except.pure]

/-- C8 witness: the bare-list shape at a concrete record yields no samples,
and the body.items and data shapes agree at the empty record list. -/
theorem c8_matching_normalization_shapes_witness :
    match_traffic_geographically (.arr [.obj [("linkId", .str "L1")]]) (0, 0, 0, 0) = .ok [] ∧
    match_traffic_geographically
        (.obj [("body", .obj [("items", .arr [])])]) (0, 0, 0, 0) =
      match_traffic_geographically (.obj [("data", .arr [])]) (0, 0, 0, 0) :=
  ⟨c8_matching_normalization_shapes.2.2.2.1 [.obj [("linkId", .str "L1")]] (0, 0, 0, 0) rfl rfl,
   c8_matching_normalization_shapes.1 [] (0, 0, 0, 0)⟩

/-- C8 counterexample: the same single record (linkId "L1", speed 44) wrapped
in the body.items shape and in the result shape normalizes to different
sample lists (one sample versus none), refuting the claim that all five
documented shapes produce the same sample list for matching. -/
theorem c8_shape_counterexample :
    match_traffic_geographically
        (.obj [("body", .obj [("items",
          .arr [.obj [("linkId", .str "L1"), ("speed", .num 44)]])])]) (0, 0, 0, 0) ≠
      match_traffic_geographically
        (.obj [("result",
          .arr [.obj [("linkId", .str "L1"), ("speed", .num 44)]])]) (0, 0, 0, 0) := by
  have h6 : ("linkId" : String) ≠ "travelTime" := by decide
  have h10 : ("speed" : String) ≠ "travelTime" := by decide
  have h11 : ("speed" : String) ≠ "roadName" := by decide
  have h12 : ("speed" : String) ≠ "createdDate" := by decide
  have h8 : ("linkId" : String) ≠ "roadName" := by decide
  have h9 : ("linkId" : String) ≠ "createdDate" := by decide
  have h4 : ("result" : String) ≠ "body" := by decide
  have h5 : ("result" : String) ≠ "data" := by decide
  have hA : match_traffic_geographically
      (.obj [("body", .obj [("items",
        .arr [.obj [("linkId", .str "L1"), ("speed", .num 44)]])])]) (0, 0, 0, 0) =
      .ok [⟨.str "L1", 44, 0, .str "", .str "",
        .obj [("linkId", .str "L1"), ("speed", .num 44)]⟩] := by
    simp [match_traffic_geographically, matchTrafficItems, matchOneItem, matchItemsLoop,
      pyContainsKey, pySubscript, pyGet, pyGetD, pyIterate, pyFloat, lookupStr, JVal.truthy,
      h6, h8, h9, h10, h11, h12, Bind.bind, Except.bind, Except.map, Pure.pure, Except.pure]
  have hB : match_traffic_geographically
      (.obj [("result",
        .arr [.obj [("linkId", .str "L1"), ("speed", .num 44)]])]) (0, 0, 0, 0) = .ok [] := by
    simp [match_traffic_geographically, matchTrafficItems, matchOneItem, matchItemsLoop,
      pyContainsKey, pySubscript, pyGet, pyGetD, pyIterate, pyFloat, lookupStr, JVal.truthy,
      h4, h5, Bind.bind, Except.bind, Except.map, Pure.pure, Except.pure]
  rw [hA, hB]
  simp

/-- C6: for every analysis result with matched samples, when the mean matched
speed is at most 0 the traffic-adjusted duration of both adjusted-route
builders equals the original planned duration unchanged, and when the mean is
positive it equals (route_distance_km / mean_speed_kmh) * 3600; with no
matched samples the simple extractor returns None and the original-format
builder keeps the planned duration. -/
theorem c6_adjusted_duration_guard :
    (∀ result : AnalysisResult, result.matchedTraffic ≠ [] →
      meanMatchedSpeed result ≤ 0 →
      (extract_traffic_adjusted_route result).map AdjustedRoute.durationSeconds =
        some result.routeData.duration ∧
      (generate_traffic_adjusted_route_original_format result).trafficDuration =
        result.routeData.duration) ∧
    (∀ result : AnalysisResult, result.matchedTraffic ≠ [] →
      0 < meanMatchedSpeed result →
      (extract_traffic_adjusted_route result).map AdjustedRoute.durationSeconds =
        some (result.routeData.distance / 1000 / meanMatchedSpeed result * 3600) ∧
      (generate_traffic_adjusted_route_original_format result).trafficDuration =
        result.routeData.distance / 1000 / meanMatchedSpeed result * 3600) ∧
    (∀ result : AnalysisResult, result.matchedTraffic = [] →
      extract_traffic_adjusted_route result = none ∧
      (generate_traffic_adjusted_route_original_format result).trafficDuration =
        result.routeData.duration) := by
  refine ⟨?_, ?_, ?_⟩
  · intro result hne h
    have hemp : result.matchedTraffic.isEmpty = false := by
      simp [List.isEmpty_iff, hne]
    have h' := not_lt.mpr h
    simp only [meanMatchedSpeed, List.length_map] at h'
    constructor
    · simp [extract_traffic_adjusted_route, hemp, List.length_map, h']
    · simp [generate_traffic_adjusted_route_original_format, hemp, List.length_map, h']
  · intro result hne h
    have hemp : result.matchedTraffic.isEmpty = false := by
      simp [List.isEmpty_iff, hne]
    have h' := h
    simp only [meanMatchedSpeed, List.length_map] at h'
    constructor
    · simp [extract_traffic_adjusted_route, hemp, List.length_map, h',
        meanMatchedSpeed]
    · simp [generate_traffic_adjusted_route_original_format, hemp, List.length_map, h',
        meanMatchedSpeed]
  · intro result hemp
    constructor
    · simp [extract_traffic_adjusted_route, hemp]
    · simp [generate_traffic_adjusted_route_original_format, hemp]

/-- C6 witness: a 9000 m, 600 s route with one matched sample of speed 0
keeps duration 600; with one sample of speed 45 km/h the adjusted duration is
720 s; with no matched samples the extractor returns None. -/
theorem c6_adjusted_duration_guard_witness :
    (extract_traffic_adjusted_route
        ⟨⟨600, 9000, .str ""⟩, .null, [⟨.str "L1", 0, 0, .str "", .str "", .null⟩],
          (0, 0, 0, 0)⟩).map AdjustedRoute.durationSeconds = some 600 ∧
    (extract_traffic_adjusted_route
        ⟨⟨600, 9000, .str ""⟩, .null, [⟨.str "L1", 45, 0, .str "", .str "", .null⟩],
          (0, 0, 0, 0)⟩).map AdjustedRoute.durationSeconds = some 720 ∧
    extract_traffic_adjusted_route
        ⟨⟨600, 9000, .str ""⟩, .null, [], (0, 0, 0, 0)⟩ = none := by
  refine ⟨?_, ?_, ?_⟩
  · have h := (c6_adjusted_duration_guard.1
      ⟨⟨600, 9000, .str ""⟩, .null, [⟨.str "L1", 0, 0, .str "", .str "", .null⟩],
        (0, 0, 0, 0)⟩ (by simp) (by norm_num [meanMatchedSpeed])).1
    simpa using h
  · have h := (c6_adjusted_duration_guard.2.1
      ⟨⟨600, 9000, .str ""⟩, .null, [⟨.str "L1", 45, 0, .str "", .str "", .null⟩],
        (0, 0, 0, 0)⟩ (by simp) (by norm_num [meanMatchedSpeed])).1
    rw [h]
    norm_num [meanMatchedSpeed]
  · exact (c6_adjusted_duration_guard.2.2
      ⟨⟨600, 9000, .str ""⟩, .null, [], (0, 0, 0, 0)⟩ rfl).1

/-- Helper: every call to check_route_traffic raises AttributeError at its
first statement, because RouteProcessor defines no
extract_waypoints_from_route_data method. -/
theorem check_route_traffic_raises (f : Bbox → Option JVal)
    (g : ℚ × ℚ → ℚ × ℚ → Option JVal) (rd : JVal) :
    check_route_traffic f g rd = .error .attributeError := by
  have h : ¬ ("extract_waypoints_from_route_data" ∈ routeProcessorMethods) := by decide
  simp [check_route_traffic, extract_waypoints_from_route_data, getattrRouteProcessor, h,
    Bind.bind, Except.bind]

/-- Helper: _validate_route_data can only return True when
result[0].routes[0] carries both the duration and the distance key. -/
theorem validate_true_duration_distance
    (rl res0l r0fields : List (String × JVal)) (resRest routesRest : List JVal)
    (hres : lookupStr "result" rl = some (.arr (.obj res0l :: resRest)))
    (hroutes : lookupStr "routes" res0l = some (.arr (.obj r0fields :: routesRest)))
    (hval : validate_route_data (.obj rl) = true) :
    (lookupStr "duration" r0fields).isSome ∧ (lookupStr "distance" r0fields).isSome := by
  unfold validate_route_data validateRouteDataAux at hval
  simp [pyContainsKey, pySubscript, hres, hroutes, Bind.bind, Except.bind,
    Pure.pure, Except.pure] at hval
  rcases hwv : lookupStr "waypoints" res0l with _ | wv
  · simp [hwv, Pure.pure, Except.pure] at hval
  · rcases wv with _ | b | q | s | wps | wfields <;>
      simp [hwv, Bind.bind, Except.bind, Pure.pure, Except.pure] at hval
    by_cases hlen : wps.length < 2
    · simp [hlen, Pure.pure, Except.pure] at hval
    · simp only [hlen, if_false] at hval
      cases hcw : checkWaypoints wps with
      | error e => simp [hcw, Bind.bind, Except.bind] at hval
      | ok okb =>
        cases okb with
        | false => simp [hcw, Bind.bind, Except.bind, Pure.pure, Except.pure] at hval
        | true =>
          simp [hcw, Bind.bind, Except.bind, Pure.pure, Except.pure] at hval
          rcases hd : lookupStr "duration" r0fields with _ | dv
          · simp [hd, Pure.pure, Except.pure] at hval
          · simp [hd, Pure.pure, Except.pure] at hval
            exact ⟨rfl, hval⟩

/-- C7: every syntactically valid /analyze-route request body whose
route_data.result[0].routes[0] exists as a dict but lacks the duration or the
distance field is answered 400 with the invalid-structure error, and the
analysis call into the monitor (the Matcher path) is never reached (the
result's flag is false). -/
theorem c7_missing_route_fields_rejected :
    ∀ (checkFn : JVal → Except PyError (Option AnalysisResult))
      (bl rl res0l r0fields : List (String × JVal)) (resRest routesRest : List JVal),
      lookupStr "route_data" bl = some (.obj rl) →
      lookupStr "result" rl = some (.arr (.obj res0l :: resRest)) →
      lookupStr "routes" res0l = some (.arr (.obj r0fields :: routesRest)) →
      (lookupStr "duration" r0fields = none ∨ lookupStr "distance" r0fields = none) →
      analyze_route checkFn (some (.obj bl)) =
        (.badRequest "Invalid route_data structure", false) := by
  intro checkFn bl rl res0l r0fields resRest routesRest hrd hres hroutes hmiss
  have hbl : bl ≠ [] := by
    intro h; rw [h] at hrd; simp [lookupStr] at hrd
  have hrl : rl ≠ [] := by
    intro h; rw [h] at hres; simp [lookupStr] at hres
  have hval : validate_route_data (.obj rl) = false := by
    by_contra h
    have h' : validate_route_data (.obj rl) = true := by
      revert h; cases validate_route_data (.obj rl) <;> simp
    have hdd := validate_true_duration_distance rl res0l r0fields resRest routesRest
      hres hroutes h'
    rcases hmiss with hm | hm <;> rw [hm] at hdd <;> simp at hdd
  unfold analyze_route
  simp [JVal.truthy, hbl, hrl, pyGet, hrd, hval, List.isEmpty_iff]

/-- C7 witness: a concrete body whose only route carries just a legs field is
rejected with 400 before any analysis. -/
theorem c7_missing_route_fields_rejected_witness :
    analyze_route (fun _ => .ok none)
      (some (.obj [("route_data", .obj [("result", .arr [.obj
        [("waypoints", .arr [.obj [("location", .obj [("latitude", .num 1), ("longitude", .num 2)])],
                             .obj [("location", .obj [("latitude", .num 3), ("longitude", .num 4)])]]),
         ("routes", .arr [.obj [("legs", .arr [])]])]])])])) =
      (.badRequest "Invalid route_data structure", false) :=
  c7_missing_route_fields_rejected (fun _ => .ok none)
    [("route_data", .obj [("result", .arr [.obj
        [("waypoints", .arr [.obj [("location", .obj [("latitude", .num 1), ("longitude", .num 2)])],
                             .obj [("location", .obj [("latitude", .num 3), ("longitude", .num 4)])]]),
         ("routes", .arr [.obj [("legs", .arr [])]])]])])]
    [("result", .arr [.obj
        [("waypoints", .arr [.obj [("location", .obj [("latitude", .num 1), ("longitude", .num 2)])],
                             .obj [("location", .obj [("latitude", .num 3), ("longitude", .num 4)])]]),
         ("routes", .arr [.obj [("legs", .arr [])]])]])]
    [("waypoints", .arr [.obj [("location", .obj [("latitude", .num 1), ("longitude", .num 2)])],
                         .obj [("location", .obj [("latitude", .num 3), ("longitude", .num 4)])]]),
     ("routes", .arr [.obj [("legs", .arr [])]])]
    [("legs", .arr [])] [] []
    rfl rfl rfl (Or.inl rfl)

/-- C2: a /analyze-route body passing boundary validation, and a
/analyze-route-simple body passing its boundary checks whose routing-engine
call resolves, are both answered with the 500 internal error carrying the
AttributeError raised by check_route_traffic's call to the undefined
RouteProcessor.extract_waypoints_from_route_data (the flag records that the
monitor call was reached); moreover neither endpoint can ever produce its
documented 200 success payload, for any request body and any oracle
behavior. -/
theorem c2_success_unreachable :
    (∀ (f : Bbox → Option JVal) (g : ℚ × ℚ → ℚ × ℚ → Option JVal) (data rd : JVal),
      data.truthy = true →
      pyGet data "route_data" = .ok (some rd) →
      rd.truthy = true →
      validate_route_data rd = true →
      analyze_route (check_route_traffic f g) (some data) =
        (.internalError .attributeError, true)) ∧
    (∀ (gJ : JVal × JVal → JVal × JVal → Option JVal)
       (f : Bbox → Option JVal) (g : ℚ × ℚ → ℚ × ℚ → Option JVal)
       (data waypointsV : JVal) (n : Nat) (wps : List JVal) (rd0 : JVal)
       (coords : (JVal × JVal) × (JVal × JVal)) (osrm : JVal),
      data.truthy = true →
      pyContainsKey data "waypoints" = .ok true →
      pySubscript data "waypoints" = .ok waypointsV →
      pyLen waypointsV = .ok n →
      ¬ n < 2 →
      pyIterate waypointsV = .ok wps →
      convert_waypoints_to_route_data wps = .ok rd0 →
      simpleStartEndCoords waypointsV n = .ok coords →
      gJ coords.1 coords.2 = some osrm →
      analyze_route_simple gJ (check_route_traffic f g) (some data) =
        (.internalError .attributeError, true)) ∧
    (∀ (f : Bbox → Option JVal) (g : ℚ × ℚ → ℚ × ℚ → Option JVal)
       (body : Option JVal) (p : AnalyzeRoutePayload),
      (analyze_route (check_route_traffic f g) body).1 ≠ .ok p) ∧
    (∀ (gJ : JVal × JVal → JVal × JVal → Option JVal)
       (f : Bbox → Option JVal) (g : ℚ × ℚ → ℚ × ℚ → Option JVal)
       (body : Option JVal) (p : AnalyzeRouteSimplePayload),
      (analyze_route_simple gJ (check_route_traffic f g) body).1 ≠ .okSimple p) := by
  refine ⟨?_, ?_, ?_, ?_⟩
  · intro f g data rd ht hget hrdt hval
    unfold analyze_route
    simp [ht, hget, hrdt, hval, check_route_traffic_raises]
  · intro gJ f g data waypointsV n wps rd0 coords osrm ht hcont hsub hlen hn hiter hconv hcoords hosrm
    unfold analyze_route_simple
    rcases coords with ⟨startC, endC⟩
    simp [ht, hcont, hsub, hlen, hn, hiter, hconv, hcoords, hosrm,
      check_route_traffic_raises]
  · intro f g body p
    rcases body with _ | data
    · simp [analyze_route]
    · unfold analyze_route
      by_cases ht : data.truthy
      · rcases hget : pyGet data "route_data" with e | rdOpt <;>
          simp [ht, hget, check_route_traffic_raises] <;> split_ifs <;> simp
      · simp [ht]
  · intro gJ f g body p
    rcases body with _ | data
    · simp [analyze_route_simple]
    · unfold analyze_route_simple
      by_cases ht : data.truthy
      · rcases hcont : pyContainsKey data "waypoints" with e | b
        · simp [ht, hcont]
        · rcases b with _ | _
          · simp [ht, hcont]
          · rcases hsub : pySubscript data "waypoints" with e | waypointsV
            · simp [ht, hcont, hsub]
            · rcases hlen : pyLen waypointsV with e | n
              · simp [ht, hcont, hsub, hlen]
              · by_cases hn : n < 2
                · simp [ht, hcont, hsub, hlen, hn]
                · rcases hiter : pyIterate waypointsV with e | wps
                  · simp [ht, hcont, hsub, hlen, hn, hiter]
                  · rcases hconv : convert_waypoints_to_route_data wps with e | rd0
                    · simp [ht, hcont, hsub, hlen, hn, hiter, hconv]
                    · rcases hcoords : simpleStartEndCoords waypointsV n with e | ⟨startC, endC⟩
                      · simp [ht, hcont, hsub, hlen, hn, hiter, hconv, hcoords]
                      · rcases hosrm : gJ startC endC with _ | osrm <;>
                          simp [ht, hcont, hsub, hlen, hn, hiter, hconv, hcoords, hosrm,
                            check_route_traffic_raises]
      · simp [ht]

/-- C2 witness: concrete valid bodies for both endpoints are answered with
the AttributeError 500. -/
theorem c2_success_unreachable_witness :
    analyze_route (check_route_traffic (fun _ => none) (fun _ _ => none))
        (some c2ValidBody) = (.internalError .attributeError, true) ∧
    analyze_route_simple (fun _ _ => some .null)
        (check_route_traffic (fun _ => none) (fun _ _ => none))
        (some c2SimpleBody) = (.internalError .attributeError, true) :=
  ⟨c2_success_unreachable.1 (fun _ => none) (fun _ _ => none) c2ValidBody
      c2ValidRouteData rfl rfl rfl rfl,
   c2_success_unreachable.2.1 (fun _ _ => some .null) (fun _ => none) (fun _ _ => none)
      c2SimpleBody (.arr c2SimpleWaypoints) 2 c2SimpleWaypoints _ _ .null
      rfl rfl rfl rfl (by norm_num) rfl rfl rfl rfl⟩

/-- C1: at the spec scenario's exact input — the two waypoints, a routing
engine returning one route of duration 600.3 s and distance 9703.7 m, and a
traffic provider returning a payload with no samples — the
/analyze-route-simple handler does not return the claimed success payload
but the 500 internal error carrying the AttributeError raised by
check_route_traffic. -/
theorem c1_scenario_returns_500 :
    analyze_route_simple (fun _ _ => some c1OsrmRoute)
        (check_route_traffic (fun _ => some c1TrafficPayload)
          (fun _ _ => some c1OsrmRoute))
        (some c1ScenarioBody) = (.internalError .attributeError, true) := rfl

/-- Intended behavior behind the C1 scenario: had the monitor call returned
an analysis result with the scenario's route data and no matched samples,
the handler would answer with the success payload whose
traffic_segments_found is 0 and whose traffic_adjusted_route carries the
"no_data" condition, exactly as the spec scenario describes. -/
theorem analyze_route_simple_no_data_scenario :
    ∃ p, analyze_route_simple (fun _ _ => some .null)
        (fun _ => .ok (some ⟨⟨6003 / 10, 97037 / 10, .str ""⟩, .null, [], (0, 0, 0, 0)⟩))
        (some c1ScenarioBody) = (.okSimple p, true) ∧
      p.originalDurationSeconds = 6003 / 10 ∧
      p.originalDistanceMeters = 97037 / 10 ∧
      p.trafficSegmentsFound = 0 ∧
      p.trafficAdjustedRoute.trafficCondition = "no_data" := by
  refine ⟨_, rfl, rfl, rfl, rfl, rfl⟩

/-- Helper: whenever an update cycle completes, it yields exactly one outcome
per monitored route id, in order. -/
theorem update_routes_processes_all_ids (fT : Bbox → Option JVal) (gO : ℚ × ℚ → ℚ × ℚ → Option JVal)
    (linkDb : JVal → Option (ℚ × ℚ × ℚ)) :
    ∀ (routes : List (String × RouteInfo)) st outs st',
      update_routes fT gO linkDb routes st = .ok (outs, st') →
      outs.map Prod.fst = routes.map Prod.fst := by
  intro routes
  induction routes with
  | nil =>
    intro st outs st' h
    simp [update_routes] at h
    simp [h.1]
  | cons hd tl ih =>
    intro st outs st' h
    rcases hd with ⟨routeId, info⟩
    unfold update_routes at h
    simp only [Bind.bind, Except.bind] at h
    cases hft : fT info.bbox with
    | none =>
      simp only [hft] at h
      rcases hrec : update_routes fT gO linkDb tl st with e | ⟨outs', st''⟩ <;>
        simp only [hrec, Except.map] at h
      · exact absurd h (by simp)
      · simp only [Except.ok.injEq, Prod.mk.injEq] at h
        rw [← h.1]
        simp [ih st outs' st'' hrec]
    | some trafficData =>
      simp only [hft] at h
      rcases hcalc : calculate_updated_route linkDb info.currentRoute trafficData with e | v <;>
        simp only [hcalc] at h
      · exact absurd h (by simp)
      cases hos : gO info.startCoords info.endCoords with
      | none =>
        simp only [hos] at h
        rcases hrec : update_routes fT gO linkDb tl st with e | ⟨outs', st''⟩ <;>
          simp only [hrec, Except.map] at h
        · exact absurd h (by simp)
        · simp only [Except.ok.injEq, Prod.mk.injEq] at h
          rw [← h.1]
          simp [ih st outs' st'' hrec]
      | some currentRoute =>
        simp only [hos] at h
        rcases h1 : pySubscript currentRoute "routes" with e | routes0 <;>
          simp only [h1] at h
        · exact absurd h (by simp)
        rcases h2 : pyIndex routes0 0 with e | routeData <;> simp only [h2] at h
        · exact absurd h (by simp)
        rcases h3 : pySubscript routeData "duration" with e | durationV <;>
          simp only [h3] at h
        · exact absurd h (by simp)
        rcases h4 : pyNumValue durationV with e | d <;> simp only [h4] at h
        · exact absurd h (by simp)
        rcases h5 : pySubscript routeData "distance" with e | distanceV <;>
          simp only [h5] at h
        · exact absurd h (by simp)
        rcases h6 : pyNumValue distanceV with e | dist <;> simp only [h6] at h
        · exact absurd h (by simp)
        rcases h7 : store_route_snapshot st.clock routeId routeData st.table with e | table' <;>
          simp only [h7] at h
        · exact absurd h (by simp)
        rcases h8 : detect_changes routeId table' with e | changes <;> simp only [h8] at h
        · exact absurd h (by simp)
        rcases hrec : update_routes fT gO linkDb tl ⟨table', st.clock + 1⟩ with e | ⟨outs', st''⟩ <;>
          simp only [hrec, Except.map] at h
        · exact absurd h (by simp)
        · simp only [Except.ok.injEq, Prod.mk.injEq] at h
          rw [← h.1]
          simp [ih _ outs' st'' hrec]

/-- C9: a traffic-fetch failure (None) for one route id contributes a
fetchFailed outcome and leaves the processing of the remaining route ids and
the state exactly as they would be without that route; a fresh-route fetch
failure (None) likewise contributes an osrmFailed outcome without disturbing
the rest (given the unused updated-route computation raised nothing); and
every completed cycle processes every monitored route id. -/
theorem c9_per_route_failure_isolated :
    (∀ fetchTraffic getOsrm linkDb routeId (info : RouteInfo) rest st,
      fetchTraffic info.bbox = none →
      update_routes fetchTraffic getOsrm linkDb ((routeId, info) :: rest) st =
        (update_routes fetchTraffic getOsrm linkDb rest st).map
          (fun r => ((routeId, .fetchFailed) :: r.1, r.2))) ∧
    (∀ fetchTraffic getOsrm linkDb routeId (info : RouteInfo) rest st trafficData v,
      fetchTraffic info.bbox = some trafficData →
      calculate_updated_route linkDb info.currentRoute trafficData = .ok v →
      getOsrm info.startCoords info.endCoords = none →
      update_routes fetchTraffic getOsrm linkDb ((routeId, info) :: rest) st =
        (update_routes fetchTraffic getOsrm linkDb rest st).map
          (fun r => ((routeId, .osrmFailed) :: r.1, r.2))) ∧
    (∀ fetchTraffic getOsrm linkDb routes st outs st',
      update_routes fetchTraffic getOsrm linkDb routes st = .ok (outs, st') →
      outs.map Prod.fst = routes.map Prod.fst) := by
  refine ⟨?_, ?_, ?_⟩
  · intro fT gO db routeId info rest st hft
    simp [update_routes, hft]
  · intro fT gO db routeId info rest st trafficData v hft hcalc hos
    simp [update_routes, hft, hcalc, hos, Bind.bind, Except.bind]
  · exact fun fT gO db => update_routes_processes_all_ids fT gO db

/-- C9 witness: a cycle over two monitored routes whose traffic fetches both
fail still yields one outcome per route. -/
theorem c9_per_route_failure_isolated_witness :
    update_routes (fun _ => none) (fun _ _ => none) (fun _ => none)
      [("r1", ⟨(0, 0), (1, 1), (0, 0, 0, 0), .null⟩),
       ("r2", ⟨(0, 0), (1, 1), (0, 0, 0, 0), .null⟩)] ⟨[], 0⟩ =
    .ok ([("r1", .fetchFailed), ("r2", .fetchFailed)], ⟨[], 0⟩) := by
  rw [c9_per_route_failure_isolated.1 (fun _ => none) (fun _ _ => none) (fun _ => none)
    "r1" ⟨(0, 0), (1, 1), (0, 0, 0, 0), .null⟩ _ ⟨[], 0⟩ rfl]
  rw [c9_per_route_failure_isolated.1 (fun _ => none) (fun _ _ => none) (fun _ => none)
    "r2" ⟨(0, 0), (1, 1), (0, 0, 0, 0), .null⟩ _ ⟨[], 0⟩ rfl]
  rfl

end EtaIts
